import Mathlib

/-!
Verification of the PUT-reconciliation program (app-puts.py).

Python strings are modelled as `List Char`; machine integers as `Int`/`Nat`.
Each definition is a shallow embedding of the corresponding function of the
source file, keeping its name where Lean allows it.
-/

/-- Whitespace characters stripped by Python str.strip (ASCII subset:
space, tab, newline, carriage return, vertical tab, form feed). -/
def isPySpace (c : Char) : Bool :=
  c == ' ' || c == '\t' || c == '\n' || c == '\r' || c == Char.ofNat 11 || c == Char.ofNat 12

/-- Left part of Python str.strip. -/
def stripLeft (l : List Char) : List Char := l.dropWhile isPySpace

/-- Right part of Python str.strip. -/
def stripRight (l : List Char) : List Char := (l.reverse.dropWhile isPySpace).reverse

/-- Python str.strip(): remove leading and trailing whitespace. -/
def pstrip (l : List Char) : List Char := stripRight (stripLeft l)

/-- Python s.endswith for the two-character suffix ".0": the last two
characters, read from the end, are '0' then '.'. -/
def endsDot0 (l : List Char) : Bool := decide (l.reverse.take 2 = ['0', '.'])

/-- Python s[:-2]: drop the last two characters. -/
def dropLast2 (l : List Char) : List Char := l.dropLast.dropLast

/-- The shared "strip then drop one trailing .0" step of the three
canonicalization functions (source lines 60-62, 67-69, 73-75). -/
def dropDot0 (l : List Char) : List Char := if endsDot0 l then dropLast2 l else l

/-- Python s.isdigit() restricted to ASCII digits: nonempty and all digits. -/
def pyIsDigit (l : List Char) : Bool := decide (l ≠ []) && l.all Char.isDigit

/-- Python s.zfill(n) for unsigned strings (all call sites are guarded by
isdigit, so the sign-handling branch of zfill is unreachable). -/
def zfill (n : Nat) (l : List Char) : List Char := List.replicate (n - l.length) '0' ++ l

/-- Source normalize_item_number (lines 59-63): strip, drop a trailing ".0",
zero-pad all-digit strings to width 7, pass anything else through. -/
def normalize_item_number (x : List Char) : List Char :=
  if pyIsDigit (dropDot0 (pstrip x)) then zfill 7 (dropDot0 (pstrip x)) else dropDot0 (pstrip x)

/-- Source normalize_order_number (lines 65-70): strip and drop a trailing ".0". -/
def normalize_order_number (x : List Char) : List Char := dropDot0 (pstrip x)

/-- Source normalize_kleurnummer (lines 72-78): strip, drop a trailing ".0",
zero-pad all-digit strings to width 3 when at most 2 digits long, else to
width 4; pass anything else through. -/
def normalize_kleurnummer (x : List Char) : List Char :=
  if pyIsDigit (dropDot0 (pstrip x)) then
    zfill (if (dropDot0 (pstrip x)).length ≤ 2 then 3 else 4) (dropDot0 (pstrip x))
  else dropDot0 (pstrip x)

/-- Source strip_leading_zeros (lines 80-82): lstrip('0'), with "0" replacing
an all-zero result. -/
def strip_leading_zeros (x : List Char) : List Char :=
  if x.dropWhile (fun c => c == '0') = [] then ['0'] else x.dropWhile (fun c => c == '0')

/-- A pandas cell value as observed by the merge code: missing (NaN, also
covering an absent column), a string, or an integer. The merge observes a
cell only through pd.isna and str, so a float cell is represented by the
string image of its repr; in particular a literal zero read from a float64
column (a numeric column that also holds blanks) appears as the string
cell "0.0", which is how should_update sees it. -/
inductive Cell where
  | na : Cell
  | s : List Char → Cell
  | i : Int → Cell
deriving DecidableEq

/-- Python str of an integer. -/
def intChars (n : Int) : List Char :=
  if n < 0 then '-' :: Nat.toDigits 10 (-n).toNat else Nat.toDigits 10 n.toNat

/-- Python str of a cell value (str(nan) is "nan"). -/
def cellStr : Cell → List Char
  | Cell.na => ['n', 'a', 'n']
  | Cell.s v => v
  | Cell.i n => intChars n

/-- pd.isna on a cell. -/
def cellIsNa : Cell → Bool
  | Cell.na => true
  | _ => false

/-- Decimal digit string to Nat. -/
def digitsToNat (l : List Char) : Nat :=
  l.foldl (fun a c => a * 10 + (c.toNat - ('0').toNat)) 0

/-- Python int(str): optional surrounding whitespace, optional sign, digits.
Anything else (including a decimal point) raises, modelled as none. -/
def pyInt (l : List Char) : Option Int :=
  match pstrip l with
  | '-' :: t => if decide (t ≠ []) && t.all Char.isDigit then some (-(digitsToNat t : Int)) else none
  | '+' :: t => if decide (t ≠ []) && t.all Char.isDigit then some ((digitsToNat t : Int)) else none
  | t => if decide (t ≠ []) && t.all Char.isDigit then some ((digitsToNat t : Int)) else none

/-- Unsigned part of the pd.to_numeric model: digits with an optional single
decimal point; the fractional part is dropped, matching the later
astype(int) truncation toward zero. -/
def parseUnsignedNumber (t : List Char) : Option Nat :=
  match t.drop (t.takeWhile (fun c => c != '.')).length with
  | [] =>
    if decide (t ≠ []) && t.all Char.isDigit then some (digitsToNat t) else none
  | _ :: fp =>
    if (decide ((t.takeWhile (fun c => c != '.')) ≠ []) || decide (fp ≠ []))
        && (t.takeWhile (fun c => c != '.')).all Char.isDigit && fp.all Char.isDigit then
      some (digitsToNat (t.takeWhile (fun c => c != '.')))
    else none

/-- Modelled library call: pd.to_numeric on one element followed by
astype(int), for plain decimal forms (optional whitespace, optional sign,
digits, optional fraction which truncation discards). Exotic forms such as
scientific notation are treated as unparsable. -/
def pyParseNumber (l : List Char) : Option Int :=
  match pstrip l with
  | '-' :: t => (parseUnsignedNumber t).map (fun n => -(n : Int))
  | '+' :: t => (parseUnsignedNumber t).map (fun n => (n : Int))
  | t => (parseUnsignedNumber t).map (fun n => (n : Int))

/-- Source line 159: pd.to_numeric(df_csv quantity, errors = coerce)
followed by fillna(0) and astype(int), applied to one cell. -/
def toNumericInt : Cell → Int
  | Cell.na => 0
  | Cell.s v => match pyParseNumber v with
    | some n => n
    | none => 0
  | Cell.i n => n

/-- One row of the intermediate CSV (columns of source line 125; line_id is
irrelevant to the merge and omitted). -/
structure CsvRow where
  put_id : List Char
  po_number : List Char
  item_number : List Char
  color_number : List Char
  quantity : Cell
deriving DecidableEq

/-- One row of the operator spreadsheet. The recognized columns are explicit
fields; rest holds every other column of the row, in order, and is never
read or written by the merge code. The put field uses Cell.na both for NaN
and for an absent PUT column, which the source treats identically. -/
structure ExcelRow where
  ordernr : List Char
  artikelnummer : List Char
  kleurnummer : List Char
  put : Cell
  received : Cell
  rest : List Cell
deriving DecidableEq

/-- Composite join key: (order number, item number, color number). -/
abbrev CKey := List Char × List Char × List Char

/-- Key of a CSV line (source lines 166-170). -/
def csvKey (r : CsvRow) : CKey := (r.po_number, r.item_number, r.color_number)

/-- Key of a spreadsheet row (source lines 176-180). -/
def rowKey (r : ExcelRow) : CKey := (r.ordernr, r.artikelnummer, r.kleurnummer)

/-- Lookup in an association list, first entry wins; models dict lookup for
a dict built by first-write-wins insertion. -/
def mlookup (k : CKey) : List (CKey × List Char) → Option (List Char)
  | [] => none
  | p :: rest => if p.1 = k then some p.2 else mlookup k rest

/-- One iteration of the mapping loop (source lines 165-172): insert the
key of the row only if it is not already present. -/
def mapStep (m : List (CKey × List Char)) (r : CsvRow) : List (CKey × List Char) :=
  if (mlookup (csvKey r) m).isSome then m else m ++ [(csvKey r, r.put_id)]

/-- The mapping of source lines 164-172, built over the CSV rows in order. -/
def buildMapping (rows : List CsvRow) : List (CKey × List Char) :=
  rows.foldl mapStep []

/-- Normalization of the CSV side (source lines 155-159). -/
def normCsvRow (r : CsvRow) : CsvRow :=
  { r with item_number := normalize_item_number r.item_number,
           color_number := normalize_kleurnummer r.color_number,
           po_number := normalize_order_number r.po_number,
           put_id := pstrip r.put_id,
           quantity := Cell.i (toNumericInt r.quantity) }

def normCsv (csv : List CsvRow) : List CsvRow := csv.map normCsvRow

/-- Normalization of the spreadsheet side (source lines 160-162). -/
def normExcelRow (r : ExcelRow) : ExcelRow :=
  { r with artikelnummer := normalize_item_number r.artikelnummer,
           kleurnummer := normalize_kleurnummer r.kleurnummer,
           ordernr := normalize_order_number r.ordernr }

/-- Source fill_put (lines 174-183): when the PUT cell is missing or blank,
take the mapped identifier for the row key, defaulting to the empty string;
otherwise keep the cell. -/
def fill_put (m : List (CKey × List Char)) (r : ExcelRow) : Cell :=
  if cellIsNa r.put = true ∨ pstrip (cellStr r.put) = [] then
    match mlookup (rowKey r) m with
    | some v => Cell.s v
    | none => Cell.s []
  else r.put

/-- Source line 201: groupby put_id, sum of quantities; dict lookup with
default. Returns some sum when the identifier occurs in the CSV, else none
(the dict has no such key). -/
def receivedLookup (rows : List CsvRow) (pid : List Char) : Option Int :=
  if rows.any (fun r => decide (r.put_id = pid)) then
    some ((rows.filter (fun r => decide (r.put_id = pid))).foldl
      (fun a r => a + toNumericInt r.quantity) 0)
  else none

/-- Source should_update (lines 203-208): NaN, blank, or the literal "0". -/
def should_update (c : Cell) : Bool :=
  cellIsNa c || decide (pstrip (cellStr c) = []) || decide (pstrip (cellStr c) = ['0'])

/-- received_quantity.get(put_id, "") packaged as a cell (source line 214). -/
def qtyCell : Option Int → Cell
  | some n => Cell.i n
  | none => Cell.s []

/-- Source get_received_qty (lines 210-216). -/
def get_received_qty (rows : List CsvRow) (r : ExcelRow) : Cell :=
  if should_update r.received then qtyCell (receivedLookup rows (pstrip (cellStr r.put)))
  else r.received

/-- Source line 185 applied to one row. -/
def fillStage (m : List (CKey × List Char)) (r : ExcelRow) : ExcelRow :=
  { r with put := fill_put m r }

/-- Source lines 186-187 applied to one row. -/
def stripStage (r : ExcelRow) : ExcelRow :=
  { r with artikelnummer := strip_leading_zeros r.artikelnummer,
           ordernr := normalize_order_number r.ordernr }

/-- Source line 218 applied to one row. -/
def qtyStage (rows : List CsvRow) (r : ExcelRow) : ExcelRow :=
  { r with received := get_received_qty rows r }

/-- Source merge_put_lines_to_excel (lines 149-220), on the already loaded
tables. Spreadsheet file loading, column-name stripping and the
received-quantity column detection (lines 150-153, 189-199) are I/O and
column plumbing outside the model: an absent received column is modelled by
blank received cells, which the inserted default column also yields. -/
def merge_put_lines_to_excel (excel : List ExcelRow) (csv : List CsvRow) : List ExcelRow :=
  (((excel.map normExcelRow).map (fillStage (buildMapping (normCsv csv)))).map stripStage).map
    (qtyStage (normCsv csv))

/-- Source constant MAX_RATE_LIMIT_SLEEP (line 9). -/
def MAX_RATE_LIMIT_SLEEP : Int := 10

/-- One HTTP response as the program reads it: status code, the three
token-bucket headers already parsed by int() when present (int() on a
present header is total on the numeric header values the claims quantify
over), the two pagination headers as raw strings (their parse failure is
observable control flow), and the JSON body as a list of records carrying
an optional id field. -/
structure Resp where
  status : Int
  bucketSize : Option Int
  marbles : Option Int
  remaining : Option Int
  pagCurrent : Option (List Char)
  pagTotal : Option (List Char)
  body : List (Option (List Char))
deriving DecidableEq

/-- Source handle_rate_limits (lines 37-46). The time.sleep side effect is
modelled by the return value: some duration when the function sleeps, none
when it does not. -/
def handle_rate_limits (r : Resp) : Option Int :=
  if r.marbles.getD 0 ≥ r.bucketSize.getD 100 - 2 ∨ r.remaining.getD (r.bucketSize.getD 100) ≤ 2 then
    some (min (max ((r.marbles.getD 0 - r.remaining.getD (r.bucketSize.getD 100) + 2) * 4) 1)
      MAX_RATE_LIMIT_SLEEP)
  else none

/-- Source safe_get (lines 48-57) over the finite list of physical responses
the transport yields for one logical call. Returns the list of sleep
durations performed (3 for each 429 retry, then any proactive throttle) and
the response handed to the caller; none models the loop still retrying when
the response list is exhausted (an all-429 transport). -/
def safe_get : List Resp → List Int × Option Resp
  | [] => ([], none)
  | r :: rest =>
    if r.status = 429 then
      (3 :: (safe_get rest).1, (safe_get rest).2)
    else
      match handle_rate_limits r with
      | some d => ([d], some r)
      | none => ([], some r)

/-- Result of the paginated collection loop. -/
inductive FetchOutcome where
  | ok : List (List Char) → FetchOutcome
  | httpError : Int → FetchOutcome
  | outOfFuel : FetchOutcome
  | stuck : FetchOutcome
deriving DecidableEq

/-- Source line 94: ids of the records of one page that carry an id. -/
def pageIds (r : Resp) : List (List Char) := r.body.filterMap (fun o => o)

/-- Source lines 97-101: read the pagination headers with their defaults;
none models the except branch (an unparsable header). current defaults to
the loop page counter and the page count defaults to current. -/
def parsePag (page : Int) (r : Resp) : Option (Int × Int) :=
  match r.pagCurrent with
  | none =>
    match r.pagTotal with
    | none => some (page, page)
    | some t =>
      match pyInt t with
      | none => none
      | some tot => some (page, tot)
  | some c =>
    match pyInt c with
    | none => none
    | some cur =>
      match r.pagTotal with
      | none => some (cur, cur)
      | some t =>
        match pyInt t with
        | none => none
        | some tot => some (cur, tot)

/-- Source get_all_puts loop (lines 84-106). attempts gives the physical
responses offered for each requested page; fuel bounds the loop so the
model is total, outOfFuel marking runs the bound cut short. The first
result component is the ghost trace of the pages requested, so theorems
can speak about how many pages were fetched. -/
def get_all_puts_go (attempts : Int → List Resp) :
    Nat → Int → List Int → List (List Char) → List Int × FetchOutcome
  | 0, _, visited, _ => (visited.reverse, FetchOutcome.outOfFuel)
  | fuel + 1, page, visited, acc =>
    match (safe_get (attempts page)).2 with
    | none => ((page :: visited).reverse, FetchOutcome.stuck)
    | some resp =>
      if 400 ≤ resp.status ∧ resp.status < 600 then
        ((page :: visited).reverse, FetchOutcome.httpError resp.status)
      else
        match parsePag page resp with
        | none => ((page :: visited).reverse, FetchOutcome.ok (acc ++ pageIds resp))
        | some ct =>
          if ct.1 ≥ ct.2 then ((page :: visited).reverse, FetchOutcome.ok (acc ++ pageIds resp))
          else get_all_puts_go attempts fuel (page + 1) (page :: visited) (acc ++ pageIds resp)

/-- Source get_all_puts (lines 84-106): the loop started at page 1. The
raise_for_status of line 92 is the 4xx or 5xx check inside the loop. -/
def get_all_puts (attempts : Int → List Resp) (fuel : Nat) : List Int × FetchOutcome :=
  get_all_puts_go attempts fuel 1 [] []

/-- Inputs on which canonicalization is idempotent: the core value left by
stripping whitespace and one trailing ".0" must itself be free of
surrounding whitespace and not end in ".0" again. -/
def okInput (x : List Char) : Prop :=
  pstrip (dropDot0 (pstrip x)) = dropDot0 (pstrip x) ∧ endsDot0 (dropDot0 (pstrip x)) = false

instance (x : List Char) : Decidable (okInput x) := by
  unfold okInput; infer_instance

/-- Modelled from the spec wording of first-write-wins: the earliest CSV
line, in input order, whose composite key matches. Used only to compare the
mapping built by the source loop against the specified resolution order. -/
def specFirstMatch (k : CKey) : List CsvRow → Option CsvRow
  | [] => none
  | r :: rs => if csvKey r = k then some r else specFirstMatch k rs

/-- Spreadsheet row of the spec scenario in section 8, with one extra
unrecognized column to observe the frame property. -/
def rowScenario : ExcelRow :=
  { ordernr := "450.0".toList, artikelnummer := "123".toList, kleurnummer := "5".toList,
    put := Cell.s [], received := Cell.s [], rest := [Cell.s ['x']] }

/-- Shipment line of the spec scenario in section 8. -/
def csvScenario : CsvRow :=
  { put_id := "P1".toList, po_number := "450".toList, item_number := "123".toList,
    color_number := "5".toList, quantity := Cell.s ['4'] }

/-- Row whose item number has leading zeros, for the frame counterexample. -/
def rowZeros : ExcelRow :=
  { ordernr := "1".toList, artikelnummer := "0123".toList, kleurnummer := "7".toList,
    put := Cell.s "P9".toList, received := Cell.i 7, rest := [Cell.i 3] }

/-- Row holding an operator-entered received quantity of 7. -/
def rowSeven : ExcelRow :=
  { ordernr := "450".toList, artikelnummer := "123".toList, kleurnummer := "5".toList,
    put := Cell.na, received := Cell.i 7, rest := [] }

/-- Row whose received-quantity cell holds a literal zero read back from a
float64 column: pandas renders it as 0.0, whose str image is "0.0". -/
def rowFloatZero : ExcelRow :=
  { ordernr := "450".toList, artikelnummer := "123".toList, kleurnummer := "5".toList,
    put := Cell.s [], received := Cell.s ("0.0".toList), rest := [] }

/-- CSV line whose quantity string cannot be parsed as a number. -/
def csvBadQty : CsvRow :=
  { put_id := "P1".toList, po_number := "450".toList, item_number := "123".toList,
    color_number := "5".toList, quantity := Cell.s "abc".toList }

/-- CSV line with a missing quantity cell. -/
def csvNaQty : CsvRow :=
  { put_id := "P1".toList, po_number := "451".toList, item_number := "124".toList,
    color_number := "6".toList, quantity := Cell.na }

/-- A response with no rate-limit pressure and no pagination headers. -/
def resp200 : Resp :=
  { status := 200, bucketSize := none, marbles := none, remaining := none,
    pagCurrent := none, pagTotal := none, body := [] }

/-- A rate-limit rejection. -/
def resp429 : Resp :=
  { status := 429, bucketSize := none, marbles := none, remaining := none,
    pagCurrent := none, pagTotal := none, body := [] }

/-- A server error. -/
def resp500 : Resp :=
  { status := 500, bucketSize := none, marbles := none, remaining := none,
    pagCurrent := none, pagTotal := none, body := [] }

/-- A non-2xx status outside the range raise_for_status treats as an error. -/
def resp304 : Resp :=
  { status := 304, bucketSize := none, marbles := none, remaining := none,
    pagCurrent := none, pagTotal := none, body := [some ['A']] }

/-- A response whose token bucket is nearly exhausted. -/
def respThrottle : Resp :=
  { status := 200, bucketSize := some 100, marbles := some 99, remaining := some 1,
    pagCurrent := none, pagTotal := none, body := [] }

/-- Endpoint that always answers 500. -/
def attempts500 : Int → List Resp := fun _ => [resp500]

/-- Endpoint that always answers 304 with one record. -/
def attempts304 : Int → List Resp := fun _ => [resp304]

/-- First page of the fake two-page listing endpoint: current 1 of 2. -/
def respPage1 : Resp :=
  { status := 200, bucketSize := none, marbles := none, remaining := none,
    pagCurrent := some "1".toList, pagTotal := some "2".toList, body := [some ['a']] }

/-- Second page of the fake two-page listing endpoint: current 2 of 2. -/
def respPage2 : Resp :=
  { status := 200, bucketSize := none, marbles := none, remaining := none,
    pagCurrent := some "2".toList, pagTotal := some "2".toList, body := [some ['b']] }

/-- Fake two-page listing endpoint: page 1 reports current 1 of 2, page 2
reports current 2 of 2. -/
def attemptsTwoPages : Int → List Resp := fun page =>
  if page = 1 then [respPage1] else if page = 2 then [respPage2] else []

/-- Fake listing endpoint whose pagination headers are entirely absent. -/
def attemptsNoHeaders : Int → List Resp := fun _ =>
  [{ status := 200, bucketSize := none, marbles := none, remaining := none,
     pagCurrent := none, pagTotal := none, body := [some ['c']] }]

/-- Fake listing endpoint whose page-count header is unparsable. -/
def attemptsBadHeaders : Int → List Resp := fun _ =>
  [{ status := 200, bucketSize := none, marbles := none, remaining := none,
     pagCurrent := some "1".toList, pagTotal := some "x".toList, body := [some ['d']] }]

lemma exists_dropWhile_append (p : Char → Bool) (l : List Char) :
    ∃ s, l = s ++ l.dropWhile p := by
  induction l with
  | nil => exact ⟨[], rfl⟩
  | cons a t ih =>
    cases h : p a with
    | true =>
      obtain ⟨s, hs⟩ := ih
      exact ⟨a :: s, by simp [List.dropWhile, h]; exact hs⟩
    | false => exact ⟨[], by simp [List.dropWhile, h]⟩

lemma length_dropWhile_le' (p : Char → Bool) (l : List Char) :
    (l.dropWhile p).length ≤ l.length := by
  obtain ⟨s, hs⟩ := exists_dropWhile_append p l
  conv_rhs => rw [hs]
  simp

lemma dropWhile_dropWhile (p : Char → Bool) (l : List Char) :
    (l.dropWhile p).dropWhile p = l.dropWhile p := by
  induction l with
  | nil => rfl
  | cons a t ih => cases h : p a <;> simp [List.dropWhile, h, ih]

lemma dropWhile_eq_self_of_none (p : Char → Bool) (l : List Char)
    (h : ∀ c ∈ l, p c = false) : l.dropWhile p = l := by
  cases l with
  | nil => rfl
  | cons a t => simp [List.dropWhile, h a (by simp)]

lemma stripLeft_idem (l : List Char) : stripLeft (stripLeft l) = stripLeft l :=
  dropWhile_dropWhile isPySpace l

lemma stripRight_idem (l : List Char) : stripRight (stripRight l) = stripRight l := by
  simp [stripRight, dropWhile_dropWhile]

lemma stripRight_append (l : List Char) : ∃ t, l = stripRight l ++ t := by
  obtain ⟨s, hs⟩ := exists_dropWhile_append isPySpace l.reverse
  refine ⟨s.reverse, ?_⟩
  conv_lhs => rw [← l.reverse_reverse, hs]
  simp [stripRight]

lemma stripLeft_stripRight (l : List Char) (h : stripLeft l = l) :
    stripLeft (stripRight l) = stripRight l := by
  obtain ⟨t, ht⟩ := stripRight_append l
  cases hsr : stripRight l with
  | nil => rfl
  | cons c u =>
    have hl : l = c :: (u ++ t) := by rw [ht, hsr]; rfl
    have hc : isPySpace c = false := by
      cases hc : isPySpace c with
      | false => rfl
      | true =>
        exfalso
        have h2 : l.dropWhile isPySpace = (u ++ t).dropWhile isPySpace := by
          rw [hl]; simp [List.dropWhile, hc]
        have h3 : l.dropWhile isPySpace = l := h
        have h4 := length_dropWhile_le' isPySpace (u ++ t)
        rw [h3, hl] at h2
        have h5 : (c :: (u ++ t)).length ≤ (u ++ t).length := by rw [h2]; exact h4
        simp at h5
    simp [stripLeft, List.dropWhile, hc]

lemma pstrip_idem (l : List Char) : pstrip (pstrip l) = pstrip l := by
  show stripRight (stripLeft (stripRight (stripLeft l))) = stripRight (stripLeft l)
  rw [stripLeft_stripRight (stripLeft l) (stripLeft_idem l), stripRight_idem]

lemma isDigit_not_pySpace (c : Char) (h : c.isDigit = true) : isPySpace c = false := by
  cases hsp : isPySpace c with
  | false => rfl
  | true =>
    exfalso
    unfold isPySpace at hsp
    simp only [Bool.or_eq_true, beq_iff_eq] at hsp
    rcases hsp with ((((h1 | h1) | h1) | h1) | h1) | h1 <;> subst h1 <;>
      exact absurd h (by decide)

lemma pstrip_of_digits (l : List Char) (h : pyIsDigit l = true) : pstrip l = l := by
  unfold pyIsDigit at h
  simp only [Bool.and_eq_true, decide_eq_true_eq, List.all_eq_true] at h
  have hall : ∀ c ∈ l, isPySpace c = false := fun c hc => isDigit_not_pySpace c (h.2 c hc)
  have h1 : stripLeft l = l := dropWhile_eq_self_of_none isPySpace l hall
  have h2 : stripRight l = l := by
    unfold stripRight
    rw [dropWhile_eq_self_of_none isPySpace l.reverse
      (fun c hc => hall c (List.mem_reverse.mp hc))]
    simp
  unfold pstrip
  rw [h1, h2]

lemma endsDot0_of_digits (l : List Char) (h : pyIsDigit l = true) : endsDot0 l = false := by
  unfold pyIsDigit at h
  simp only [Bool.and_eq_true, decide_eq_true_eq, List.all_eq_true] at h
  cases hd : endsDot0 l with
  | false => rfl
  | true =>
    exfalso
    unfold endsDot0 at hd
    simp only [decide_eq_true_eq] at hd
    have hmem : '.' ∈ l.reverse.take 2 := by rw [hd]; simp
    have hmem2 : '.' ∈ l := List.mem_reverse.mp (List.take_subset 2 l.reverse hmem)
    exact absurd (h.2 '.' hmem2) (by decide)

lemma pyIsDigit_zfill (n : Nat) (l : List Char) (h : pyIsDigit l = true) :
    pyIsDigit (zfill n l) = true := by
  unfold pyIsDigit zfill at *
  simp only [Bool.and_eq_true, decide_eq_true_eq, List.all_eq_true] at *
  constructor
  · simp [h.1]
  · intro c hc
    rcases List.mem_append.mp hc with hc | hc
    · rw [List.eq_of_mem_replicate hc]; decide
    · exact h.2 c hc

lemma zfill_length (n : Nat) (l : List Char) : (zfill n l).length = max n l.length := by
  simp [zfill]
  omega

lemma zfill_of_le (n : Nat) (l : List Char) (h : n ≤ l.length) : zfill n l = l := by
  simp [zfill, Nat.sub_eq_zero_of_le h]

lemma zfill_zfill (n : Nat) (l : List Char) : zfill n (zfill n l) = zfill n l :=
  zfill_of_le n (zfill n l) (by rw [zfill_length]; exact le_max_left n l.length)

lemma core_of_canonical (r : List Char) (h1 : pstrip r = r) (h2 : endsDot0 r = false) :
    dropDot0 (pstrip r) = r := by
  rw [h1]
  simp [dropDot0, h2]

/-- C1 fails as stated: the color function maps "5" to "005" but maps "005"
to "0005" (the pad width switches from 3 to 4 at three digits), and the
item and order functions strip only one trailing ".0", so "12.0.0"
canonicalizes to "12.0", which canonicalizes differently again. -/
theorem c1_canonicalization_idempotent_counterexample :
    normalize_kleurnummer (normalize_kleurnummer ("5".toList)) ≠
      normalize_kleurnummer ("5".toList) ∧
    normalize_item_number (normalize_item_number ("12.0.0".toList)) ≠
      normalize_item_number ("12.0.0".toList) ∧
    normalize_order_number (normalize_order_number ("12.0.0".toList)) ≠
      normalize_order_number ("12.0.0".toList) := by decide

/-- C1 amended: each canonicalization function is idempotent on every input
whose core (whitespace stripped, one trailing ".0" removed) is itself free
of surrounding whitespace and does not end in ".0"; for the color function
an all-digit core must additionally have at least three digits. -/
theorem c1_canonicalization_idempotent_amended :
    (∀ x : List Char, okInput x →
        normalize_item_number (normalize_item_number x) = normalize_item_number x) ∧
    (∀ x : List Char, okInput x →
        normalize_order_number (normalize_order_number x) = normalize_order_number x) ∧
    (∀ x : List Char, okInput x →
        (pyIsDigit (dropDot0 (pstrip x)) = true → 3 ≤ (dropDot0 (pstrip x)).length) →
        normalize_kleurnummer (normalize_kleurnummer x) = normalize_kleurnummer x) := by
  refine ⟨?_, ?_, ?_⟩
  · rintro x ⟨h1, h2⟩
    cases hd : pyIsDigit (dropDot0 (pstrip x)) with
    | false =>
      have hx : normalize_item_number x = dropDot0 (pstrip x) := by
        unfold normalize_item_number; rw [if_neg (by simp [hd])]
      rw [hx]
      unfold normalize_item_number
      rw [core_of_canonical _ h1 h2, if_neg (by simp [hd])]
    | true =>
      have hx : normalize_item_number x = zfill 7 (dropDot0 (pstrip x)) := by
        unfold normalize_item_number; rw [if_pos hd]
      rw [hx]
      have hd7 := pyIsDigit_zfill 7 _ hd
      unfold normalize_item_number
      rw [core_of_canonical _ (pstrip_of_digits _ hd7) (endsDot0_of_digits _ hd7),
        if_pos hd7, zfill_zfill]
  · rintro x ⟨h1, h2⟩
    show dropDot0 (pstrip (dropDot0 (pstrip x))) = dropDot0 (pstrip x)
    exact core_of_canonical _ h1 h2
  · rintro x ⟨h1, h2⟩ h3
    cases hd : pyIsDigit (dropDot0 (pstrip x)) with
    | false =>
      have hx : normalize_kleurnummer x = dropDot0 (pstrip x) := by
        unfold normalize_kleurnummer; rw [if_neg (by simp [hd])]
      rw [hx]
      unfold normalize_kleurnummer
      rw [core_of_canonical _ h1 h2, if_neg (by simp [hd])]
    | true =>
      have hlen := h3 hd
      have hx : normalize_kleurnummer x = zfill 4 (dropDot0 (pstrip x)) := by
        unfold normalize_kleurnummer
        rw [if_pos hd, if_neg (by omega)]
      rw [hx]
      have hd4 := pyIsDigit_zfill 4 _ hd
      have hlen4 : ¬ (zfill 4 (dropDot0 (pstrip x))).length ≤ 2 := by
        rw [zfill_length]; omega
      unfold normalize_kleurnummer
      rw [core_of_canonical _ (pstrip_of_digits _ hd4) (endsDot0_of_digits _ hd4),
        if_pos hd4, if_neg hlen4, zfill_zfill]

/-- C1 witness: the amended idempotence applied at concrete inputs. -/
theorem c1_canonicalization_idempotent_witness :
    okInput ("123".toList) ∧ okInput ("450.0".toList) ∧
    normalize_item_number (normalize_item_number ("123".toList)) =
      normalize_item_number ("123".toList) ∧
    normalize_order_number (normalize_order_number ("450.0".toList)) =
      normalize_order_number ("450.0".toList) ∧
    normalize_kleurnummer (normalize_kleurnummer ("123".toList)) =
      normalize_kleurnummer ("123".toList) :=
  ⟨by decide, by decide,
   c1_canonicalization_idempotent_amended.1 _ (by decide),
   c1_canonicalization_idempotent_amended.2.1 _ (by decide),
   c1_canonicalization_idempotent_amended.2.2 _ (by decide) (by decide)⟩

/-- C9: the item canonicalization pads "123" to "0000123", strips the ".0"
artifact of "1234567.0", passes the non-numeric "AB12" through, and the
color canonicalization pads "5" to "005" and "123" to "0123". -/
theorem c9_concrete_canonicalizations :
    normalize_item_number ("123".toList) = "0000123".toList ∧
    normalize_item_number ("1234567.0".toList) = "1234567".toList ∧
    normalize_item_number ("AB12".toList) = "AB12".toList ∧
    normalize_kleurnummer ("5".toList) = "005".toList ∧
    normalize_kleurnummer ("123".toList) = "0123".toList := by decide

lemma mlookup_append_of_some (k : CKey) (m l2 : List (CKey × List Char)) (w : List Char)
    (h : mlookup k m = some w) : mlookup k (m ++ l2) = some w := by
  induction m with
  | nil => simp [mlookup] at h
  | cons p t ih =>
    simp only [List.cons_append, mlookup] at h ⊢
    by_cases hp : p.1 = k
    · rw [if_pos hp] at h ⊢; exact h
    · rw [if_neg hp] at h ⊢; exact ih h

lemma mlookup_append_of_none (k : CKey) (m l2 : List (CKey × List Char))
    (h : mlookup k m = none) : mlookup k (m ++ l2) = mlookup k l2 := by
  induction m with
  | nil => simp
  | cons p t ih =>
    simp only [List.cons_append, mlookup] at h ⊢
    by_cases hp : p.1 = k
    · rw [if_pos hp] at h; exact absurd h (by simp)
    · rw [if_neg hp] at h ⊢; exact ih h

lemma buildMapping_go (k : CKey) (rows : List CsvRow) :
    ∀ m : List (CKey × List Char),
      mlookup k (rows.foldl mapStep m) =
        match mlookup k m with
        | some w => some w
        | none => Option.map CsvRow.put_id (specFirstMatch k rows) := by
  induction rows with
  | nil =>
    intro m
    cases hm : mlookup k m <;> simp [specFirstMatch, hm]
  | cons r rs ih =>
    intro m
    show mlookup k (rs.foldl mapStep (mapStep m r)) = _
    rw [ih (mapStep m r)]
    unfold mapStep
    by_cases hk : csvKey r = k
    · cases hm : mlookup k m with
      | some w =>
        have hm2 : (mlookup (csvKey r) m).isSome = true := by rw [hk, hm]; rfl
        rw [if_pos hm2, hm]
      | none =>
        have hm2 : (mlookup (csvKey r) m).isSome = false := by rw [hk, hm]; rfl
        rw [if_neg (by simp [hm2])]
        rw [mlookup_append_of_none k m _ hm]
        have : mlookup k [(csvKey r, r.put_id)] = some r.put_id := by
          simp only [mlookup]; rw [if_pos hk]
        rw [this]
        simp [specFirstMatch, hk]
    · have hfm : specFirstMatch k (r :: rs) = specFirstMatch k rs := by
        simp only [specFirstMatch]; rw [if_neg hk]
      cases hm : mlookup k m with
      | some w =>
        by_cases hpres : (mlookup (csvKey r) m).isSome = true
        · rw [if_pos hpres, hm]
        · rw [if_neg hpres, mlookup_append_of_some k m _ w hm]
      | none =>
        by_cases hpres : (mlookup (csvKey r) m).isSome = true
        · rw [if_pos hpres, hm, hfm]
        · rw [if_neg hpres, mlookup_append_of_none k m _ hm]
          have : mlookup k [(csvKey r, r.put_id)] = none := by
            simp only [mlookup]; rw [if_neg hk]
          rw [this, hfm]

/-- C4: looking a canonical composite key up in the mapping built over the
normalized CSV lines yields the shipment identifier of the earliest line,
in input order, with that key; later duplicates are ignored. -/
theorem c4_first_write_wins (csv : List CsvRow) (k : CKey) :
    mlookup k (buildMapping (normCsv csv)) =
      Option.map CsvRow.put_id (specFirstMatch k (normCsv csv)) := by
  have h := buildMapping_go k (normCsv csv) []
  simpa [buildMapping, mlookup] using h

lemma merge_eq_map (excel : List ExcelRow) (csv : List CsvRow) :
    merge_put_lines_to_excel excel csv =
      excel.map (fun r =>
        qtyStage (normCsv csv)
          (stripStage (fillStage (buildMapping (normCsv csv)) (normExcelRow r)))) := by
  unfold merge_put_lines_to_excel
  simp [List.map_map, Function.comp]

lemma merge_length (excel : List ExcelRow) (csv : List CsvRow) :
    (merge_put_lines_to_excel excel csv).length = excel.length := by
  rw [merge_eq_map]; simp

lemma merge_get (excel : List ExcelRow) (csv : List CsvRow) (i : Nat)
    (h : i < excel.length) (h2 : i < (merge_put_lines_to_excel excel csv).length) :
    (merge_put_lines_to_excel excel csv).get ⟨i, h2⟩ =
      qtyStage (normCsv csv)
        (stripStage (fillStage (buildMapping (normCsv csv))
          (normExcelRow (excel.get ⟨i, h⟩)))) := by
  have h3 : (merge_put_lines_to_excel excel csv).get? i =
      some (qtyStage (normCsv csv)
        (stripStage (fillStage (buildMapping (normCsv csv))
          (normExcelRow (excel.get ⟨i, h⟩))))) := by
    rw [merge_eq_map, List.get?_map, List.get?_eq_get h]
    rfl
  have h4 := List.get?_eq_get h2
  rw [h3] at h4
  exact (Option.some.inj h4).symm

/-- C2 fails as stated: merging a row whose item number is "0123" changes
that field to "123" (canonicalization followed by the leading-zero strip of
source line 186), even though the claim allows only the PUT and
received-quantity fields to change. -/
theorem c2_frame_counterexample :
    (merge_put_lines_to_excel [rowZeros] []).map ExcelRow.artikelnummer ≠
      [rowZeros.artikelnummer] := by decide

/-- C2 amended: the reconciliation pass rewrites only the shipment-id (PUT),
received-quantity, order-number, item-number and color-number fields of each
row; the three key fields change exactly by canonicalization (the item
number additionally gets its leading zeros stripped, the order number is
canonicalized twice), and every field outside these five is unchanged. -/
theorem c2_frame_amended (excel : List ExcelRow) (csv : List CsvRow) :
    (merge_put_lines_to_excel excel csv).length = excel.length ∧
    ∀ (i : Nat) (h : i < excel.length) (h2 : i < (merge_put_lines_to_excel excel csv).length),
      ((merge_put_lines_to_excel excel csv).get ⟨i, h2⟩).rest = (excel.get ⟨i, h⟩).rest ∧
      ((merge_put_lines_to_excel excel csv).get ⟨i, h2⟩).artikelnummer =
        strip_leading_zeros (normalize_item_number (excel.get ⟨i, h⟩).artikelnummer) ∧
      ((merge_put_lines_to_excel excel csv).get ⟨i, h2⟩).kleurnummer =
        normalize_kleurnummer (excel.get ⟨i, h⟩).kleurnummer ∧
      ((merge_put_lines_to_excel excel csv).get ⟨i, h2⟩).ordernr =
        normalize_order_number (normalize_order_number (excel.get ⟨i, h⟩).ordernr) := by
  refine ⟨merge_length excel csv, ?_⟩
  intro i h h2
  rw [merge_get excel csv i h h2]
  simp [qtyStage, stripStage, fillStage, normExcelRow]

/-- C2 witness: the amended frame property applied to a concrete row. -/
theorem c2_frame_amended_witness :
    ((merge_put_lines_to_excel [rowZeros] []).get ⟨0, by decide⟩).rest = rowZeros.rest :=
  ((c2_frame_amended [rowZeros] []).2 0 (by decide) (by decide)).1

lemma merged_row_received (rows : List CsvRow) (m : List (CKey × List Char)) (r : ExcelRow) :
    (qtyStage rows (stripStage (fillStage m (normExcelRow r)))).received =
      if should_update r.received then
        qtyCell (receivedLookup rows (pstrip (cellStr (fill_put m (normExcelRow r)))))
      else r.received := rfl

lemma merged_row_put (rows : List CsvRow) (m : List (CKey × List Char)) (r : ExcelRow) :
    (qtyStage rows (stripStage (fillStage m (normExcelRow r)))).put =
      fill_put m (normExcelRow r) := rfl

/-- C3 fails as stated: a literal zero entered in a received-quantity column
that pandas types as float64 (a numeric column that also holds blanks)
reads back as 0.0, whose str image is "0.0"; should_update (source lines
203-208) tests str(q).strip() against the exact string "0", which is false
for "0.0", so the zero-valued cell is kept even though the row's resolved
shipment identifier carries the aggregated quantity 4. -/
theorem c3_received_quantity_counterexample :
    should_update (Cell.s ("0.0".toList)) = false ∧
    ((merge_put_lines_to_excel [rowFloatZero] [csvScenario]).get ⟨0, by decide⟩).received =
      Cell.s ("0.0".toList) ∧
    receivedLookup (normCsv [csvScenario])
      (pstrip (cellStr
        (((merge_put_lines_to_excel [rowFloatZero] [csvScenario]).get ⟨0, by decide⟩).put))) =
      some 4 := by decide

/-- C3 amended: after the shipment identifier of a row is resolved, the
received-quantity cell is replaced by the aggregated quantity of the
shipment lines sharing that identifier (blank when it has no aggregated
quantity) exactly when should_update holds of the cell, that is when the
cell is missing, blank after stripping, or reads back as the exact string
"0" (so a missing cell, an empty string, the string "0" and an integer
zero are replaced, while the float-zero image "0.0" is not); any cell
outside that boundary, such as a 7, is never changed. -/
theorem c3_received_quantity_update (excel : List ExcelRow) (csv : List CsvRow) (i : Nat)
    (h : i < excel.length) (h2 : i < (merge_put_lines_to_excel excel csv).length) :
    (should_update (excel.get ⟨i, h⟩).received = false →
       ((merge_put_lines_to_excel excel csv).get ⟨i, h2⟩).received =
         (excel.get ⟨i, h⟩).received) ∧
    (should_update (excel.get ⟨i, h⟩).received = true →
       ((merge_put_lines_to_excel excel csv).get ⟨i, h2⟩).received =
         qtyCell (receivedLookup (normCsv csv)
           (pstrip (cellStr (((merge_put_lines_to_excel excel csv).get ⟨i, h2⟩).put))))) ∧
    ((excel.get ⟨i, h⟩).received = Cell.i 7 →
       ((merge_put_lines_to_excel excel csv).get ⟨i, h2⟩).received = Cell.i 7) ∧
    should_update Cell.na = true ∧
    should_update (Cell.s []) = true ∧
    should_update (Cell.s ['0']) = true ∧
    should_update (Cell.i 0) = true ∧
    should_update (Cell.s ('0' :: '.' :: ['0'])) = false := by
  rw [merge_get excel csv i h h2]
  rw [merged_row_received (normCsv csv) (buildMapping (normCsv csv)) (excel.get ⟨i, h⟩),
    merged_row_put (normCsv csv) (buildMapping (normCsv csv)) (excel.get ⟨i, h⟩)]
  have hs7 : should_update (Cell.i 7) = false := by decide
  refine ⟨?_, ?_, ?_, by decide, by decide, by decide, by decide, by decide⟩
  · intro hsu
    rw [hsu]
    simp
  · intro hsu
    rw [hsu]
    simp
  · intro h7
    rw [h7, hs7]
    simp

/-- C3 witness: the amended update rule applied to the spec scenario row
(blank received quantity, filled from the aggregation) and to a row holding
7 (left untouched). -/
theorem c3_received_quantity_update_witness :
    should_update rowScenario.received = true ∧
    ((merge_put_lines_to_excel [rowScenario] [csvScenario]).get ⟨0, by decide⟩).received =
      qtyCell (receivedLookup (normCsv [csvScenario])
        (pstrip (cellStr
          (((merge_put_lines_to_excel [rowScenario] [csvScenario]).get ⟨0, by decide⟩).put)))) ∧
    rowSeven.received = Cell.i 7 ∧
    ((merge_put_lines_to_excel [rowSeven] [csvScenario]).get ⟨0, by decide⟩).received =
      Cell.i 7 :=
  ⟨by decide,
   (c3_received_quantity_update [rowScenario] [csvScenario] 0 (by decide) (by decide)).2.1
     (by decide),
   by decide,
   (c3_received_quantity_update [rowSeven] [csvScenario] 0 (by decide) (by decide)).2.2.1
     (by decide)⟩

/-- C5: a row whose PUT cell is missing or blank receives exactly the mapped
identifier of its composite key, or the blank string when the key has no
match; in both cases the merge is a total function, so no error is raised. -/
theorem c5_blank_put_fill (excel : List ExcelRow) (csv : List CsvRow) (i : Nat)
    (h : i < excel.length) (h2 : i < (merge_put_lines_to_excel excel csv).length) :
    (cellIsNa (excel.get ⟨i, h⟩).put = true ∨
        pstrip (cellStr (excel.get ⟨i, h⟩).put) = []) →
    ((merge_put_lines_to_excel excel csv).get ⟨i, h2⟩).put =
      (match mlookup (rowKey (normExcelRow (excel.get ⟨i, h⟩))) (buildMapping (normCsv csv)) with
       | some v => Cell.s v
       | none => Cell.s []) := by
  intro hyp
  rw [merge_get excel csv i h h2]
  have hyp2 : cellIsNa (normExcelRow (excel.get ⟨i, h⟩)).put = true ∨
      pstrip (cellStr (normExcelRow (excel.get ⟨i, h⟩)).put) = [] := by
    simpa [normExcelRow] using hyp
  show fill_put (buildMapping (normCsv csv)) (normExcelRow (excel.get ⟨i, h⟩)) = _
  unfold fill_put
  rw [if_pos hyp2]

/-- C5 witness: the spec scenario row (blank PUT, matching key) receives the
mapped identifier. -/
theorem c5_blank_put_fill_witness :
    (cellIsNa rowScenario.put = true ∨ pstrip (cellStr rowScenario.put) = []) ∧
    ((merge_put_lines_to_excel [rowScenario] [csvScenario]).get ⟨0, by decide⟩).put =
      (match mlookup (rowKey (normExcelRow rowScenario)) (buildMapping (normCsv [csvScenario])) with
       | some v => Cell.s v
       | none => Cell.s []) :=
  ⟨by decide,
   c5_blank_put_fill [rowScenario] [csvScenario] 0 (by decide) (by decide) (by decide)⟩

/-- C6: on a non-429 response carrying the three token-bucket headers the
fetcher sleeps exactly when the consumed marbles are within 2 of the
capacity or at most 2 requests remain, for (consumed - remaining + 2) * 4
seconds clamped to the range 1 to 10, and the triggering response is still
the one returned to the caller. -/
theorem c6_token_bucket_throttle (r : Resp) (b m rem : Int) (rest : List Resp)
    (h429 : ¬ r.status = 429) (hb : r.bucketSize = some b) (hm : r.marbles = some m)
    (hr : r.remaining = some rem) :
    handle_rate_limits r =
      (if m ≥ b - 2 ∨ rem ≤ 2 then some (min (max ((m - rem + 2) * 4) 1) 10) else none) ∧
    (safe_get (r :: rest)).2 = some r := by
  constructor
  · unfold handle_rate_limits MAX_RATE_LIMIT_SLEEP
    rw [hb, hm, hr]
    rfl
  · simp only [safe_get]
    rw [if_neg h429]
    cases hrl : handle_rate_limits r <;> simp [hrl]

/-- C6 witness: the throttle rule applied to a response whose bucket of 100
holds 99 marbles with 1 request remaining. -/
theorem c6_token_bucket_throttle_witness :
    ¬ respThrottle.status = 429 ∧
    (handle_rate_limits respThrottle =
      (if (99 : Int) ≥ 100 - 2 ∨ (1 : Int) ≤ 2 then
        some (min (max (((99 : Int) - 1 + 2) * 4) 1) 10) else none) ∧
    (safe_get [respThrottle]).2 = some respThrottle) :=
  ⟨by decide, c6_token_bucket_throttle respThrottle 100 99 1 [] (by decide) rfl rfl rfl⟩

/-- C7 fails as stated: a 304 response is non-2xx and not a 429, yet
raise_for_status raises only for statuses in 400 to 599, so the run
completes normally instead of aborting with a hard failure. -/
theorem c7_error_taxonomy_counterexample :
    resp304.status ≠ 429 ∧ ¬ (200 ≤ resp304.status ∧ resp304.status < 300) ∧
    get_all_puts attempts304 5 = ([1], FetchOutcome.ok [['A']]) := by decide

/-- C7 amended: every 429 response is retried after a fixed 3-second sleep
and never surfaced, with no retry limit (an all-429 transport retries
forever); a 4xx or 5xx response other than 429 is returned by the fetcher
without retry and aborts the collection as a hard failure; statuses outside
400 to 599 (such as 304) are not treated as failures. -/
theorem c7_error_taxonomy_amended :
    (∀ (rs : List Resp) (r : Resp), (safe_get rs).2 = some r → ¬ r.status = 429) ∧
    (∀ (n : Nat) (a r : Resp) (rest : List Resp), a.status = 429 → ¬ r.status = 429 →
       safe_get (List.replicate n a ++ r :: rest) =
         (List.replicate n 3 ++ (safe_get (r :: rest)).1, some r)) ∧
    (∀ (n : Nat) (a : Resp), a.status = 429 →
       safe_get (List.replicate n a) = (List.replicate n 3, none)) ∧
    (∀ (attempts : Int → List Resp) (fuel : Nat) (page : Int) (visited : List Int)
       (acc : List (List Char)) (r : Resp),
       (safe_get (attempts page)).2 = some r → 400 ≤ r.status → r.status < 600 →
       get_all_puts_go attempts (fuel + 1) page visited acc =
         ((page :: visited).reverse, FetchOutcome.httpError r.status)) := by
  refine ⟨?_, ?_, ?_, ?_⟩
  · intro rs
    induction rs with
    | nil => intro r hr; simp [safe_get] at hr
    | cons a t ih =>
      intro r hr
      simp only [safe_get] at hr
      by_cases ha : a.status = 429
      · rw [if_pos ha] at hr
        exact ih r hr
      · rw [if_neg ha] at hr
        cases hrl : handle_rate_limits a <;> rw [hrl] at hr <;> simp at hr <;>
          rw [← hr] <;> exact ha
  · intro n a r rest ha hrne
    induction n with
    | zero =>
      simp only [List.replicate, List.nil_append]
      have h2 : (safe_get (r :: rest)).2 = some r := by
        simp only [safe_get]
        rw [if_neg hrne]
        cases hrl : handle_rate_limits r <;> simp [hrl]
      exact Prod.ext rfl h2
    | succ k ih =>
      rw [List.replicate_succ, List.cons_append]
      have hstep : safe_get (a :: (List.replicate k a ++ r :: rest)) =
          (3 :: (safe_get (List.replicate k a ++ r :: rest)).1,
           (safe_get (List.replicate k a ++ r :: rest)).2) := by
        simp only [safe_get]
        rw [if_pos ha]
      rw [hstep, ih]
      simp [List.replicate_succ]
  · intro n a ha
    induction n with
    | zero => simp [safe_get]
    | succ k ih =>
      rw [List.replicate_succ]
      simp only [safe_get]
      rw [if_pos ha, ih]
      simp [List.replicate_succ]
  · intro attempts fuel page visited acc r hsafe h4 h5
    simp only [get_all_puts_go, hsafe]
    rw [if_pos ⟨h4, h5⟩]

/-- C7 witness: two 429 responses are slept through at 3 seconds each before
the 200 response is returned; an all-429 transport never yields; a 500
response aborts the run as a hard failure. -/
theorem c7_error_taxonomy_witness :
    (¬ resp200.status = 429) ∧
    safe_get (List.replicate 2 resp429 ++ resp200 :: []) =
      (List.replicate 2 3 ++ (safe_get (resp200 :: [])).1, some resp200) ∧
    safe_get (List.replicate 5 resp429) = (List.replicate 5 3, none) ∧
    get_all_puts_go attempts500 1 1 [] [] = ([1], FetchOutcome.httpError resp500.status) :=
  ⟨c7_error_taxonomy_amended.1 [resp200] resp200 (by decide),
   c7_error_taxonomy_amended.2.1 2 resp429 resp200 [] (by decide) (by decide),
   c7_error_taxonomy_amended.2.2.1 5 resp429 (by decide),
   c7_error_taxonomy_amended.2.2.2 attempts500 0 1 [] [] resp500 (by decide) (by decide)
     (by decide)⟩

/-- C8: the listing loop stops when the parsed current page is at least the
parsed page count, keeping the ids collected so far; headers entirely
absent parse to current = page = page count, so the loop stops after that
page; an unparsable header stops the loop after that page without error,
again keeping the collected ids; the fake two-page endpoint with headers
current 2 of 2 stops after exactly two pages, and the header-free endpoint
after exactly one. -/
theorem c8_pagination_termination :
    (∀ (attempts : Int → List Resp) (fuel : Nat) (page : Int) (visited : List Int)
        (acc : List (List Char)) (r : Resp) (c t : Int),
        (safe_get (attempts page)).2 = some r → ¬ (400 ≤ r.status ∧ r.status < 600) →
        parsePag page r = some (c, t) → c ≥ t →
        get_all_puts_go attempts (fuel + 1) page visited acc =
          ((page :: visited).reverse, FetchOutcome.ok (acc ++ pageIds r))) ∧
    (∀ (attempts : Int → List Resp) (fuel : Nat) (page : Int) (visited : List Int)
        (acc : List (List Char)) (r : Resp),
        (safe_get (attempts page)).2 = some r → ¬ (400 ≤ r.status ∧ r.status < 600) →
        parsePag page r = none →
        get_all_puts_go attempts (fuel + 1) page visited acc =
          ((page :: visited).reverse, FetchOutcome.ok (acc ++ pageIds r))) ∧
    (∀ (page : Int) (r : Resp), r.pagCurrent = none → r.pagTotal = none →
        parsePag page r = some (page, page)) ∧
    get_all_puts attemptsTwoPages 10 = ([1, 2], FetchOutcome.ok [['a'], ['b']]) ∧
    get_all_puts attemptsNoHeaders 10 = ([1], FetchOutcome.ok [['c']]) ∧
    get_all_puts attemptsBadHeaders 10 = ([1], FetchOutcome.ok [['d']]) := by
  refine ⟨?_, ?_, ?_, by decide, by decide, by decide⟩
  · intro attempts fuel page visited acc r c t hsafe hstat hparse hge
    simp only [get_all_puts_go, hsafe, hparse]
    rw [if_neg hstat, if_pos hge]
  · intro attempts fuel page visited acc r hsafe hstat hparse
    simp only [get_all_puts_go, hsafe, hparse]
    rw [if_neg hstat]
  · intro page r h1 h2
    simp [parsePag, h1, h2]

/-- C8 witness: the termination rule applied at page 2 of the fake two-page
endpoint, whose headers read current 2 of page count 2. -/
theorem c8_pagination_termination_witness :
    (safe_get (attemptsTwoPages 2)).2 = some respPage2 ∧
    parsePag 2 respPage2 = some (2, 2) ∧
    get_all_puts_go attemptsTwoPages 1 2 [1] [['a']] =
      (([2, 1] : List Int).reverse, FetchOutcome.ok ([['a']] ++ pageIds respPage2)) :=
  ⟨by decide, by decide,
   c8_pagination_termination.1 attemptsTwoPages 0 2 [1] [['a']] respPage2 2 2 (by decide)
     (by decide) (by decide) (by decide)⟩

/-- C10: a quantity cell that is missing parses to 0, a quantity string that
cannot be parsed as a number parses to 0, the CSV normalization feeding the
per-identifier aggregation replaces every quantity by exactly this parse,
and the aggregation over an unparsable, a missing and a "4" quantity, all
for identifier P1, totals 4; every function involved is total, so no error
is raised. -/
theorem c10_quantity_coercion :
    toNumericInt Cell.na = 0 ∧
    (∀ v : List Char, pyParseNumber v = none → toNumericInt (Cell.s v) = 0) ∧
    (∀ (csv : List CsvRow) (i : Nat) (h : i < csv.length) (h2 : i < (normCsv csv).length),
        ((normCsv csv).get ⟨i, h2⟩).quantity =
          Cell.i (toNumericInt ((csv.get ⟨i, h⟩).quantity))) ∧
    receivedLookup (normCsv [csvBadQty, csvNaQty, csvScenario]) ("P1".toList) = some 4 := by
  refine ⟨rfl, ?_, ?_, by decide⟩
  · intro v hv
    simp [toNumericInt, hv]
  · intro csv i h h2
    have h3 : (normCsv csv).get? i = some (normCsvRow (csv.get ⟨i, h⟩)) := by
      rw [normCsv, List.get?_map, List.get?_eq_get h]
      rfl
    have h4 := List.get?_eq_get h2
    rw [h3] at h4
    rw [← Option.some.inj h4]
    rfl

/-- C10 witness: the coercion applied to the unparsable quantity "abc". -/
theorem c10_quantity_coercion_witness :
    pyParseNumber ("abc".toList) = none ∧
    toNumericInt (Cell.s ("abc".toList)) = 0 ∧
    ((normCsv [csvBadQty]).get ⟨0, by decide⟩).quantity =
      Cell.i (toNumericInt csvBadQty.quantity) :=
  ⟨by decide,
   c10_quantity_coercion.2.1 ("abc".toList) (by decide),
   c10_quantity_coercion.2.2.1 [csvBadQty] 0 (by decide) (by decide)⟩

